import Mathlib

/-
Verification of the calculator's operation classes, operation factory,
serialization layer and undo/redo engine.

Sources embedded from the repository:
  app/operations.py        (Operation variants and OperationFactory)
Modelled from the spec where the repository code is not available here
(app/calculator.py, app/calculation.py, app/calculator_memento.py): the
Calculator engine, the Calculation record and the CalculatorMemento
snapshot, each marked `Modelled from the spec:` in its doc comment.

Python `Decimal` values are modelled as exact rationals (every finite
Decimal is a rational number; context-precision rounding and special
values NaN/sNaN are outside the model). Python exceptions are modelled
as an error inductive returned through `Except`.
-/

deriving instance DecidableEq for Except

/-- Python `Decimal` operand values, modelled as exact rationals. -/
abbrev Dec := ℚ

/-- Kinds of Python exceptions and engine signals that the embedded code can
raise: the app's own `ValidationError` and `OperationError`, Python's builtin
`TypeError`, `ValueError` and `ZeroDivisionError`, the `decimal` module's
`DivisionByZero`, and the engine's nothing-to-undo / nothing-to-redo signals. -/
inductive PyError
  | validationError
  | operationError
  | typeError
  | valueError
  | zeroDivisionError
  | decimalDivisionByZero
  | nothingToUndo
  | nothingToRedo
  deriving DecidableEq

/-- Python's `str.lower()` applied to the operation-name strings of this
program (all ASCII): lowercases every character. -/
def pyLower (s : String) : String := ⟨s.data.map Char.toLower⟩

/-- `Addition.execute` from app/operations.py: `return a + b`. -/
def Addition.execute (a b : Dec) : Dec := a + b

/-- `Subtraction.execute` from app/operations.py: `return a - b`. -/
def Subtraction.execute (a b : Dec) : Dec := a - b

/-- `Multiplication.execute` from app/operations.py: `return a * b`. -/
def Multiplication.execute (a b : Dec) : Dec := a * b

/-- `Division.validate_operands` from app/operations.py. Its docstring says it
raises `ValidationError` if the divisor is zero, but the method body is empty
(it consists of the docstring alone), so it embeds as a no-op that never
fails. -/
def Division.validateOperands (_a _b : Dec) : Except PyError Unit := .ok ()

/-- `Division.execute` from app/operations.py: `return a / b`, with no zero
check and no call to `validate_operands`. Dividing a Python `Decimal` by zero
raises `decimal.DivisionByZero`, embedded as the error case. -/
def Division.execute (a b : Dec) : Except PyError Dec :=
  if b = 0 then .error .decimalDivisionByZero else .ok (a / b)

/-- A finite decimal magnitude that Python's `float()` conversion rounds to
IEEE-754 binary64 infinity: round-to-nearest sends every magnitude at or above
`2^1024 - 2^970` to `inf`. (`float(Decimal)` converts via the decimal string,
so overflow yields `inf` silently, not `OverflowError`.) -/
abbrev floatIsInf (x : Dec) : Prop := (2 : ℚ) ^ 1024 - 2 ^ 970 ≤ |x|

/-- A decimal magnitude that Python's `float()` conversion rounds to binary64
(signed) zero: every magnitude at or below `2^(-1075)` rounds to `0.0`. -/
abbrev floatIsZero (x : Dec) : Prop := |x| ≤ 1 / (2 : ℚ) ^ 1075

/-- A rational with denominator 1, i.e. an integer value: models a
floating-point exponent `iw` with `iw == floor(iw)`. -/
abbrev ratIsInt (x : Dec) : Prop := x.den = 1

/-- Outcome classes of the float-path computation `Decimal(pow(float(a), e))`
when it does not raise. The finite generic value is kept symbolic: the claims
about Root concern its error behaviour, and the numeric value of the platform's
double-precision power function is outside the model. -/
inductive PowOutcome
  | one
  | infinite
  | zero
  | floatApprox (a b : Dec)
  deriving DecidableEq

/-- `Root.execute` from app/operations.py:
`return Decimal(pow(float(a), 1 / float(b)))`.
Control-flow model of the Python float path, in evaluation order:
`float(a)` and `float(b)` never raise (overflow gives `inf`, underflow gives
`0.0`); `1 / float(b)` raises `ZeroDivisionError` when `float(b)` is zero;
builtin `pow` on floats then follows CPython's `float_pow` special cases:
exponent `0.0` (from `float(b) = inf`) returns `1.0`; an infinite base returns
an infinite result for a positive exponent and `0.0` for a negative one,
without error; base `0.0` raises `ZeroDivisionError` for a negative exponent
and returns `0.0` otherwise; a negative finite base with a non-integral
exponent returns a complex number, and `Decimal(complex)` then raises
`TypeError`. The binary64 rounding of the exponent `1 / float(b)` is
abstracted to the exact rational `1 / b` (they agree on integrality for every
input considered in the theorems below). -/
def Root.execute (a b : Dec) : Except PyError PowOutcome :=
  if floatIsZero b then .error .zeroDivisionError
  else if floatIsInf b then .ok .one
  else if floatIsInf a then (if b < 0 then .ok .zero else .ok .infinite)
  else if floatIsZero a then (if b < 0 then .error .zeroDivisionError else .ok .zero)
  else if a < 0 ∧ ¬ ratIsInt (1 / b) then .error .typeError
  else .ok (.floatApprox a b)

/-- A Python class object as the operation factory sees it: its name, and
whether it is a subclass of the abstract base class `Operation` (the only
property `register_operation` inspects, via `issubclass`). -/
structure PyClass where
  className : String
  inheritsOperation : Bool
  deriving DecidableEq

/-- The `Addition` class object. -/
def AdditionClass : PyClass := ⟨"Addition", true⟩

/-- The `Subtraction` class object. -/
def SubtractionClass : PyClass := ⟨"Subtraction", true⟩

/-- The `Multiplication` class object. -/
def MultiplicationClass : PyClass := ⟨"Multiplication", true⟩

/-- The `Division` class object. -/
def DivisionClass : PyClass := ⟨"Division", true⟩

/-- The `Power` class object. -/
def PowerClass : PyClass := ⟨"Power", true⟩

/-- The `Root` class object. -/
def RootClass : PyClass := ⟨"Root", true⟩

/-- `OperationFactory._operations` from app/operations.py: the seeded
name-to-class dictionary. The Python dict is modelled as an association list
read through first-match lookup; `register_operation`'s overwriting update is
modelled by prepending, which is observationally the same through this
lookup. -/
def defaultOperations : List (String × PyClass) :=
  [("add", AdditionClass), ("subtract", SubtractionClass),
   ("multiply", MultiplicationClass), ("divide", DivisionClass),
   ("power", PowerClass), ("root", RootClass)]

/-- `OperationFactory.register_operation` from app/operations.py: raises
`TypeError` unless `issubclass(operation_class, Operation)`, otherwise stores
the class under the lowercased name (silently overwriting any previous
entry). -/
def registerOperation (ops : List (String × PyClass)) (name : String)
    (operationClass : PyClass) : Except PyError (List (String × PyClass)) :=
  if operationClass.inheritsOperation then .ok ((pyLower name, operationClass) :: ops)
  else .error .typeError

/-- `OperationFactory.create_operation` from app/operations.py: looks up the
lowercased operation type in `_operations` and returns (an instance of) the
registered class, raising `ValueError` ("Unknown operation") on a miss. -/
def createOperation (ops : List (String × PyClass)) (operationType : String) :
    Except PyError PyClass :=
  match ops.lookup (pyLower operationType) with
  | some c => .ok c
  | none => .error .valueError

/-- The decimal digit characters of a natural number, most significant first:
models the digit portion of a Python numeric string. -/
def natToChars (n : ℕ) : List Char :=
  ((Nat.digits 10 n).map (fun d => Char.ofNat (48 + d))).reverse

/-- Reads a big-endian list of decimal digit characters back to the natural
number it denotes. -/
def charsToNat (cs : List Char) : ℕ :=
  Nat.ofDigits 10 ((cs.map (fun c => c.toNat - 48)).reverse)

/-- Whether a character is one of the decimal digits 0-9. -/
def isDecDigit (c : Char) : Bool := 48 ≤ c.toNat && c.toNat ≤ 57

/-- A string-encoded decimal value: a sign flag and the digit characters of
the numerator and denominator of the exact rational it denotes. Modelled from
the spec: the serialized mapping stores operands and results "string-encoded"
such that the round trip is exact decimal equality; this is the injective
character-level encoding of the rational model of `Decimal`. -/
structure DecStr where
  neg : Bool
  numChars : List Char
  denChars : List Char
  deriving DecidableEq

/-- Encodes a decimal value to its string form. -/
def encodeDec (q : Dec) : DecStr :=
  ⟨decide (q.num < 0), natToChars q.num.natAbs, natToChars q.den⟩

/-- Decodes a string-encoded decimal, failing with a `ValidationError`-kind
error on a malformed field (a non-digit character or a zero denominator), as
the spec requires of `from_dict`. -/
def decodeDec (s : DecStr) : Except PyError Dec :=
  if s.numChars.all isDecDigit && s.denChars.all isDecDigit then
    let n : ℕ := charsToNat s.numChars
    let d : ℕ := charsToNat s.denChars
    if d = 0 then .error .validationError
    else .ok ((if s.neg then -(n : ℚ) else (n : ℚ)) / (d : ℚ))
  else .error .validationError

/-- Modelled from the spec: app/calculation.py is not under src/. A
`Calculation` is an immutable record of one executed operation: operation name
(string), the two decimal operands, the stored result computed at creation,
and a timestamp (kept as its ISO-8601 string; wall-clock time is outside the
model). -/
structure Calculation where
  operation : String
  operand1 : Dec
  operand2 : Dec
  result : Dec
  timestamp : String
  deriving DecidableEq

/-- The serialized mapping produced by `Calculation.to_dict`: string-encoded
operation name, operands, result, and ISO-8601 timestamp. -/
structure CalcDict where
  operation : String
  operand1 : DecStr
  operand2 : DecStr
  result : DecStr
  timestamp : String
  deriving DecidableEq

/-- Modelled from the spec: `Calculation.to_dict()` returns the mapping with
string-encoded operation name, operands, result and ISO-8601 timestamp. -/
def Calculation.toDict (c : Calculation) : CalcDict :=
  ⟨c.operation, encodeDec c.operand1, encodeDec c.operand2,
   encodeDec c.result, c.timestamp⟩

/-- Modelled from the spec: `Calculation.from_dict(mapping)` reconstructs a
`Calculation`, failing with a `ValidationError`-kind error on malformed
fields. The spec leaves open whether the result is "recomputed or stored at
creation"; the stored result field is read back, which is what the round-trip
invariant constrains. -/
def Calculation.fromDict (d : CalcDict) : Except PyError Calculation := do
  let a ← decodeDec d.operand1
  let b ← decodeDec d.operand2
  let r ← decodeDec d.result
  .ok ⟨d.operation, a, b, r, d.timestamp⟩

/-- Modelled from the spec: app/calculator_memento.py is not under src/. A
`CalculatorMemento` is an immutable snapshot of the full calculation sequence
plus a timestamp. -/
structure CalculatorMemento where
  history : List Calculation
  timestamp : String
  deriving DecidableEq

/-- The serialized mapping produced by `CalculatorMemento.to_dict`. -/
structure MementoDict where
  history : List CalcDict
  timestamp : String
  deriving DecidableEq

/-- Modelled from the spec: `CalculatorMemento.to_dict()` is
`{history: [calc.to_dict() for each], timestamp: iso8601}`. -/
def CalculatorMemento.toDict (m : CalculatorMemento) : MementoDict :=
  ⟨m.history.map Calculation.toDict, m.timestamp⟩

/-- Deserializes each entry of a serialized history in order through
`Calculation.from_dict`, propagating the first failure: models the list
comprehension inside `CalculatorMemento.from_dict`. -/
def calcListFromDict : List CalcDict → Except PyError (List Calculation)
  | [] => .ok []
  | d :: rest => do
      let c ← Calculation.fromDict d
      let cs ← calcListFromDict rest
      .ok (c :: cs)

/-- Modelled from the spec: `CalculatorMemento.from_dict(mapping)`
reconstructs the history list (each entry via `Calculation.from_dict`) and the
timestamp, failing with a `ValidationError`-kind error on malformed
structure. -/
def CalculatorMemento.fromDict (d : MementoDict) : Except PyError CalculatorMemento := do
  let h ← calcListFromDict d.history
  .ok ⟨h, d.timestamp⟩

/-- Modelled from the spec: the Calculator engine's registry view of the
operations it can execute, mapping a lowercase operation name to the execute
function of the registered operation class. Only the exact-decimal operations
are seeded here: the float-valued `power` and `root` results are abstracted
(see `PowOutcome`), and the engine theorems below quantify over arbitrary
registries, which subsumes any operation implementation of this type. -/
def defaultEngineOps : List (String × (Dec → Dec → Except PyError Dec)) :=
  [("add", fun a b => .ok (Addition.execute a b)),
   ("subtract", fun a b => .ok (Subtraction.execute a b)),
   ("multiply", fun a b => .ok (Multiplication.execute a b)),
   ("divide", Division.execute)]

/-- Modelled from the spec: app/calculator.py is not under src/. The engine
state: live history, the undo stack and the redo stack of mementos, every
stack most-recent-last. Observer handles are outside the model (notification
is synchronous and does not change this state). -/
structure Calculator where
  history : List Calculation
  undoStack : List CalculatorMemento
  redoStack : List CalculatorMemento
  deriving DecidableEq

/-- A fresh engine: empty history and stacks. -/
def calcInit : Calculator := ⟨[], [], []⟩

/-- Modelled from the spec: `perform_operation(operation_name, operand1,
operand2)` resolves the operation by lowercase-normalized name via the
registry (a miss is an `OperationError`-kind failure, as is an exception from
`execute`, while a `ValidationError` propagates as itself); on success it
pushes a memento of the pre-operation history onto the undo stack, appends the
new `Calculation` to the history, clears the redo stack, and returns the
result. Operands arrive already parsed to decimals (string parsing belongs to
the excluded REPL caller). -/
def Calculator.performOperation (reg : List (String × (Dec → Dec → Except PyError Dec)))
    (s : Calculator) (name : String) (a b : Dec) : Except PyError (Calculator × Dec) :=
  match reg.lookup (pyLower name) with
  | none => .error .operationError
  | some f =>
    match f a b with
    | .error e => .error (if e = .validationError then .validationError else .operationError)
    | .ok r =>
      .ok ({ history := s.history ++ [⟨name, a, b, r, ""⟩],
             undoStack := s.undoStack ++ [⟨s.history, ""⟩],
             redoStack := [] }, r)

/-- Modelled from the spec: `undo()` fails with the nothing-to-undo signal on
an empty undo stack; otherwise it pops the most recent memento from the undo
stack, pushes a memento of the current (pre-undo) history onto the redo stack,
and restores the history from the popped snapshot. -/
def Calculator.undo (s : Calculator) : Except PyError Calculator :=
  match s.undoStack.getLast? with
  | none => .error .nothingToUndo
  | some m => .ok { history := m.history,
                    undoStack := s.undoStack.dropLast,
                    redoStack := s.redoStack ++ [⟨s.history, ""⟩] }

/-- Modelled from the spec: `redo()` is the mirror of `undo()` using the redo
stack, failing with the nothing-to-redo signal when it is empty. -/
def Calculator.redo (s : Calculator) : Except PyError Calculator :=
  match s.redoStack.getLast? with
  | none => .error .nothingToRedo
  | some m => .ok { history := m.history,
                    undoStack := s.undoStack ++ [⟨s.history, ""⟩],
                    redoStack := s.redoStack.dropLast }

/-- A rational strictly between 0 and 1 is not integer-valued. -/
lemma not_ratIsInt_of_between {q : ℚ} (h1 : 0 < q) (h2 : q < 1) : ¬ ratIsInt q := by
  intro h
  rw [ratIsInt, Rat.den_eq_one_iff] at h
  have h3 : (0 : ℚ) < q.num := by rw [h]; exact h1
  have h4 : (q.num : ℚ) < 1 := by rw [h]; exact h2
  have h5 : (0 : ℤ) < q.num := by exact_mod_cast h3
  have h6 : q.num < 1 := by exact_mod_cast h4
  omega

/-- A digit below ten encodes to a character that decodes back to itself. -/
lemma char_digit_round {d : ℕ} (hd : d < 10) : (Char.ofNat (48 + d)).toNat - 48 = d := by
  interval_cases d <;> decide

/-- A digit below ten encodes to a decimal digit character. -/
lemma char_digit_isDecDigit {d : ℕ} (hd : d < 10) : isDecDigit (Char.ofNat (48 + d)) = true := by
  interval_cases d <;> decide

/-- Reading back the digit characters of a natural number recovers it. -/
lemma charsToNat_natToChars (n : ℕ) : charsToNat (natToChars n) = n := by
  unfold charsToNat natToChars
  rw [List.map_reverse, List.reverse_reverse, List.map_map]
  have h : ∀ d ∈ Nat.digits 10 n, ((fun c => c.toNat - 48) ∘ fun d => Char.ofNat (48 + d)) d = d := by
    intro d hd
    exact char_digit_round (Nat.digits_lt_base (by norm_num) hd)
  rw [List.map_congr_left h, List.map_id', Nat.ofDigits_digits]

/-- Every character produced by `natToChars` is a decimal digit. -/
lemma natToChars_all_digits (n : ℕ) : (natToChars n).all isDecDigit = true := by
  rw [List.all_eq_true]
  intro c hc
  rw [natToChars, List.mem_reverse, List.mem_map] at hc
  obtain ⟨d, hd, rfl⟩ := hc
  exact char_digit_isDecDigit (Nat.digits_lt_base (by norm_num) hd)

/-- The string encoding of a decimal value decodes back to it exactly. -/
lemma decodeDec_encodeDec (q : Dec) : decodeDec (encodeDec q) = .ok q := by
  unfold decodeDec encodeDec
  simp only [natToChars_all_digits, Bool.and_self, if_true, charsToNat_natToChars]
  rw [if_neg (by exact_mod_cast q.den_nz)]
  congr 1
  by_cases h : q.num < 0
  · rw [if_pos (decide_eq_true h), Nat.cast_natAbs, abs_of_neg h]
    push_cast
    simpa using Rat.num_div_den q
  · rw [if_neg (by simp [h]), Nat.cast_natAbs, abs_of_nonneg (not_lt.mp h)]
    simpa using Rat.num_div_den q

/-- Per-record serialization round trip for `Calculation`. -/
lemma fromDict_toDict_calc (c : Calculation) : Calculation.fromDict c.toDict = .ok c := by
  unfold Calculation.fromDict Calculation.toDict
  simp only [decodeDec_encodeDec]
  rfl

/-- Deserializing a serialized history recovers every entry. -/
lemma calcListFromDict_map (l : List Calculation) :
    calcListFromDict (l.map Calculation.toDict) = .ok l := by
  induction l with
  | nil => rfl
  | cons c rest ih =>
      simp only [List.map_cons, calcListFromDict, fromDict_toDict_calc, ih]
      rfl

/-- Serialization round trip for `CalculatorMemento`. -/
lemma fromDict_toDict_memento (m : CalculatorMemento) :
    CalculatorMemento.fromDict m.toDict = .ok m := by
  unfold CalculatorMemento.fromDict CalculatorMemento.toDict
  simp only [calcListFromDict_map]
  rfl

/-- Unfolds a successful `perform_operation` call: when the registry lookup
finds the operation and its execution succeeds, the engine appends the new
calculation, pushes the pre-operation memento, clears the redo stack and
returns the result. -/
lemma performOperation_ok {reg : List (String × (Dec → Dec → Except PyError Dec))}
    {s : Calculator} {name : String} {a b : Dec}
    {f : Dec → Dec → Except PyError Dec} {r : Dec}
    (hf : reg.lookup (pyLower name) = some f) (hr : f a b = .ok r) :
    Calculator.performOperation reg s name a b =
      .ok ({ history := s.history ++ [⟨name, a, b, r, ""⟩],
             undoStack := s.undoStack ++ [⟨s.history, ""⟩],
             redoStack := [] }, r) := by
  unfold Calculator.performOperation
  simp only [hf, hr]

/-- C3: serialization round-trips. For every Calculation c,
`Calculation.from_dict(c.to_dict())` reproduces c's operation name, operands
and result with exact decimal equality (and its timestamp string), and for
every history-carrying memento, `CalculatorMemento.from_dict(m.to_dict())`
reproduces it field-for-field. -/
theorem serialization_round_trip :
    (∀ c : Calculation, Calculation.fromDict c.toDict = .ok c) ∧
    (∀ m : CalculatorMemento, CalculatorMemento.fromDict m.toDict = .ok m) :=
  ⟨fromDict_toDict_calc, fromDict_toDict_memento⟩

/-- C1: the claim that dividing by zero fails with a ValidationError-kind
error is contradicted by the code. `Division.validate_operands` is an empty
no-op (despite its docstring promising `ValidationError` on a zero divisor),
`Division.execute(a, 0)` raises `decimal.DivisionByZero` for every a, and at
the engine level `perform_operation('divide', 7, 0)` surfaces an
OperationError-kind failure; neither error is ValidationError-kind. -/
theorem division_zero_divisor_error_kind :
    (∀ a : Dec, Division.validateOperands a 0 = .ok () ∧
        Division.execute a 0 = .error .decimalDivisionByZero) ∧
    Calculator.performOperation defaultEngineOps calcInit "divide" 7 0 =
      .error .operationError ∧
    PyError.decimalDivisionByZero ≠ PyError.validationError ∧
    PyError.operationError ≠ PyError.validationError := by
  refine ⟨fun a => ⟨rfl, by rw [Division.execute, if_pos rfl]⟩, by decide, by decide, by decide⟩

/-- C2: every successful `perform_operation` call leaves the redo stack empty
(whatever state the engine was in — in particular, any state with a non-empty
redo stack — and whatever operation registry is in effect), so redo is only
available immediately after an undo, never after a fresh operation. -/
theorem perform_operation_clears_redo
    (reg : List (String × (Dec → Dec → Except PyError Dec))) (s : Calculator)
    (name : String) (a b : Dec) (out : Calculator × Dec)
    (h : Calculator.performOperation reg s name a b = .ok out) :
    out.1.redoStack = [] := by
  unfold Calculator.performOperation at h
  split at h
  · exact absurd h (by simp)
  · split at h
    · exact absurd h (by simp)
    · simp only [Except.ok.injEq] at h
      rw [← h]

/-- Witness for C2: a concrete successful add(2, 3) from a state whose redo
stack is non-empty produces a state with an empty redo stack. -/
theorem perform_operation_clears_redo_witness :
    Calculator.performOperation defaultEngineOps ⟨[], [], [⟨[], ""⟩]⟩ "add" 2 3 =
      .ok (⟨[⟨"add", 2, 3, 5, ""⟩], [⟨[], ""⟩], []⟩, 5) ∧
    (⟨[⟨"add", 2, 3, 5, ""⟩], [⟨[], ""⟩], []⟩ : Calculator).redoStack = [] := by
  have h5 : Addition.execute 2 3 = 5 := by norm_num [Addition.execute]
  have hp : Calculator.performOperation defaultEngineOps ⟨[], [], [⟨[], ""⟩]⟩ "add" 2 3 =
      .ok (⟨[⟨"add", 2, 3, 5, ""⟩], [⟨[], ""⟩], []⟩, 5) := by
    rw [performOperation_ok (show defaultEngineOps.lookup (pyLower "add") =
      some (fun a b => .ok (Addition.execute a b)) from rfl) (by rw [h5])]
    rw [show (5 : ℚ) = Addition.execute 2 3 from h5.symm]
    rfl
  exact ⟨hp, perform_operation_clears_redo defaultEngineOps ⟨[], [], [⟨[], ""⟩]⟩
    "add" 2 3 (⟨[⟨"add", 2, 3, 5, ""⟩], [⟨[], ""⟩], []⟩, 5) hp⟩

/-- C4: the exact-decimal arithmetic of the operation variants: Addition
returns a+b, Subtraction a-b, Multiplication a*b, and for b different from 0
Division returns a/b — also through `perform_operation('divide', a, b)` —
exactly in the rational model of decimal arithmetic, with no floating-point
path involved. -/
theorem operations_exact_decimal_arithmetic (a b : Dec) :
    Addition.execute a b = a + b ∧
    Subtraction.execute a b = a - b ∧
    Multiplication.execute a b = a * b ∧
    (b ≠ 0 → Division.execute a b = .ok (a / b) ∧
      ∀ s : Calculator,
        (Calculator.performOperation defaultEngineOps s "divide" a b).map Prod.snd =
          .ok (a / b)) := by
  refine ⟨rfl, rfl, rfl, fun hb => ?_⟩
  have hdiv : Division.execute a b = .ok (a / b) := by
    rw [Division.execute, if_neg hb]
  refine ⟨hdiv, fun s => ?_⟩
  rw [performOperation_ok
    (show defaultEngineOps.lookup (pyLower "divide") = some Division.execute from rfl) hdiv]
  rfl

/-- Witness for C4: dividing 7 by 2 yields exactly 7/2 both directly and
through the engine. -/
theorem operations_exact_decimal_arithmetic_witness :
    Division.execute 7 2 = .ok (7 / 2) ∧
    (Calculator.performOperation defaultEngineOps calcInit "divide" 7 2).map Prod.snd =
      .ok (7 / 2) :=
  ⟨((operations_exact_decimal_arithmetic 7 2).2.2.2 (by norm_num)).1,
   ((operations_exact_decimal_arithmetic 7 2).2.2.2 (by norm_num)).2 calcInit⟩

/-- C5: `create_operation` looks up the lowercase-normalized name: whenever
the registry holds a class under the normalized name it returns that class
(a fresh instance of it), whenever no entry matches it fails with the
unknown-operation `ValueError`, and a freshly registered name (e.g. a custom
"modulus") immediately resolves to the registered class. -/
theorem create_operation_lookup_contract :
    (∀ (ops : List (String × PyClass)) (name : String) (c : PyClass),
        ops.lookup (pyLower name) = some c → createOperation ops name = .ok c) ∧
    (∀ (ops : List (String × PyClass)) (name : String),
        ops.lookup (pyLower name) = none → createOperation ops name = .error .valueError) ∧
    (∀ (ops ops' : List (String × PyClass)) (name : String) (c : PyClass),
        registerOperation ops name c = .ok ops' → createOperation ops' name = .ok c) := by
  refine ⟨fun ops name c h => ?_, fun ops name h => ?_, fun ops ops' name c h => ?_⟩
  · unfold createOperation
    rw [h]
  · unfold createOperation
    rw [h]
  · unfold registerOperation at h
    split at h
    · simp only [Except.ok.injEq] at h
      unfold createOperation
      rw [← h]
      simp [List.lookup]
    · exact absurd h (by simp)

/-- Witness for C5: "add" resolves to the Addition class in the seeded
registry, "bogus" fails with the unknown-operation error, and a registered
custom "modulus" class resolves to itself. -/
theorem create_operation_lookup_contract_witness :
    createOperation defaultOperations "add" = .ok AdditionClass ∧
    createOperation defaultOperations "bogus" = .error .valueError ∧
    createOperation (("modulus", (⟨"Modulus", true⟩ : PyClass)) :: defaultOperations)
      "modulus" = .ok ⟨"Modulus", true⟩ :=
  ⟨create_operation_lookup_contract.1 defaultOperations "add" AdditionClass rfl,
   create_operation_lookup_contract.2.1 defaultOperations "bogus" rfl,
   create_operation_lookup_contract.2.2 defaultOperations _ "modulus" ⟨"Modulus", true⟩ rfl⟩

/-- C6: `register_operation` fails with `TypeError` for every class that does
not satisfy the Operation contract (`issubclass` check); for every class that
does, it stores the class under the lowercase-normalized name so that the
lookup finds it — silently overwriting any previous entry for that name, since
the new binding shadows whatever the registry held before. -/
theorem register_operation_contract :
    (∀ (ops : List (String × PyClass)) (name : String) (c : PyClass),
        c.inheritsOperation = false → registerOperation ops name c = .error .typeError) ∧
    (∀ (ops : List (String × PyClass)) (name : String) (c : PyClass),
        c.inheritsOperation = true →
          registerOperation ops name c = .ok ((pyLower name, c) :: ops) ∧
          ((pyLower name, c) :: ops).lookup (pyLower name) = some c) := by
  refine ⟨fun ops name c h => ?_, fun ops name c h => ⟨?_, ?_⟩⟩
  · unfold registerOperation
    rw [h]
    rfl
  · unfold registerOperation
    rw [h]
    rfl
  · simp [List.lookup]

/-- Witness for C6: a non-Operation class is rejected with TypeError, and a
valid Modulus class registered over the seeded registry is found by lookup. -/
theorem register_operation_contract_witness :
    registerOperation defaultOperations "bad" ⟨"NotAnOperation", false⟩ =
      .error .typeError ∧
    registerOperation defaultOperations "Modulus" ⟨"Modulus", true⟩ =
      .ok ((pyLower "Modulus", ⟨"Modulus", true⟩) :: defaultOperations) ∧
    ((pyLower "Modulus", (⟨"Modulus", true⟩ : PyClass)) :: defaultOperations).lookup
      (pyLower "Modulus") = some ⟨"Modulus", true⟩ :=
  ⟨register_operation_contract.1 defaultOperations "bad" ⟨"NotAnOperation", false⟩ rfl,
   (register_operation_contract.2 defaultOperations "Modulus" ⟨"Modulus", true⟩ rfl).1,
   (register_operation_contract.2 defaultOperations "Modulus" ⟨"Modulus", true⟩ rfl).2⟩

/-- Counterexample to C7 as stated: at the concrete domain-invalid input
a = -(10^400), b = 2 (an even root of a negative operand), `Root.execute`
reports no error: `float(a)` silently converts to `-inf`, `pow(-inf, 0.5)` is
`+inf` by the float special cases, and the result is returned as
`Decimal('Infinity')` — an invalid numeric value silently propagated. -/
theorem root_even_negative_silent_infinity :
    Root.execute (-(10 ^ 400)) 2 = .ok .infinite := by
  have h1 : ¬ floatIsZero (2 : ℚ) := by norm_num [floatIsZero]
  have h2 : ¬ floatIsInf (2 : ℚ) := by norm_num [floatIsInf]
  have h3 : floatIsInf (-(10 ^ 400) : ℚ) := by norm_num [floatIsInf]
  have h4 : ¬ ((2 : ℚ) < 0) := by norm_num
  simp only [Root.execute, if_neg h1, if_neg h2, if_pos h3, if_neg h4]

/-- C7 (amended): for every domain-invalid Root input whose operands stay
inside the binary64 float range — a negative radicand a with
2^(-1074) ≤ |a| ≤ 2^1023 and an even root degree b = 2k, 1 ≤ k, with
b ≤ 2^1023 — `Root.execute` reports an error (`TypeError`: builtin `pow`
returns a complex number for a negative base and non-integral exponent, and
`Decimal(complex)` rejects it) rather than returning or silently propagating
an invalid numeric value. Outside that range the float path is silent, as the
counterexample shows. -/
theorem root_even_negative_reports_error (a b : Dec) (k : ℕ)
    (ha : a < 0) (haLo : 1 / (2 : ℚ) ^ 1074 ≤ |a|) (haHi : |a| ≤ (2 : ℚ) ^ 1023)
    (hk : 1 ≤ k) (hbk : b = 2 * (k : ℚ)) (hbHi : b ≤ (2 : ℚ) ^ 1023) :
    Root.execute a b = .error .typeError := by
  have hb2 : (2 : ℚ) ≤ b := by
    rw [hbk]
    have hk1 : (1 : ℚ) ≤ (k : ℚ) := by exact_mod_cast hk
    linarith
  have hbpos : (0 : ℚ) < b := lt_of_lt_of_le (by norm_num) hb2
  have habs_b : |b| = b := abs_of_pos hbpos
  have hnz_b : ¬ floatIsZero b := by
    simp only [floatIsZero, habs_b]
    intro hle
    have : (1 : ℚ) / 2 ^ 1075 < 2 := by norm_num
    linarith
  have hninf_b : ¬ floatIsInf b := by
    simp only [floatIsInf, habs_b]
    intro hle
    have : (2 : ℚ) ^ 1023 < 2 ^ 1024 - 2 ^ 970 := by norm_num
    linarith
  have hninf_a : ¬ floatIsInf a := by
    simp only [floatIsInf]
    intro hle
    have : (2 : ℚ) ^ 1023 < 2 ^ 1024 - 2 ^ 970 := by norm_num
    linarith
  have hnz_a : ¬ floatIsZero a := by
    simp only [floatIsZero]
    intro hle
    have : (1 : ℚ) / 2 ^ 1075 < 1 / 2 ^ 1074 := by norm_num
    linarith
  have hint : ¬ ratIsInt (1 / b) :=
    not_ratIsInt_of_between (one_div_pos.mpr hbpos) (by rw [div_lt_one hbpos]; linarith)
  have hcond : a < 0 ∧ ¬ ratIsInt (1 / b) := ⟨ha, hint⟩
  simp only [Root.execute, if_neg hnz_b, if_neg hninf_b, if_neg hninf_a, if_neg hnz_a,
    if_pos hcond]

/-- Witness for the amended C7: the square root of -4 raises TypeError. -/
theorem root_even_negative_reports_error_witness :
    Root.execute (-4) 2 = .error .typeError :=
  root_even_negative_reports_error (-4) 2 1 (by norm_num) (by norm_num) (by norm_num)
    (by norm_num) (by norm_num) (by norm_num)

/-- C9: from every engine state with a non-empty undo stack, `undo()` followed
immediately by `redo()` succeeds and restores a history identical to the
pre-undo history: undo pushes a memento of the current (pre-undo) history onto
the redo stack and restores the popped snapshot, and redo mirrors this. -/
theorem undo_then_redo_restores_history (s : Calculator) (h : s.undoStack ≠ []) :
    Except.map Calculator.history (s.undo.bind Calculator.redo) = .ok s.history := by
  obtain ⟨m, hm⟩ : ∃ m, s.undoStack.getLast? = some m := by
    cases hL : s.undoStack.getLast? with
    | none => exact absurd (List.getLast?_eq_none_iff.mp hL) h
    | some m => exact ⟨m, rfl⟩
  unfold Calculator.undo
  simp only [hm]
  show Except.map _
    (Calculator.redo ⟨m.history, s.undoStack.dropLast, s.redoStack ++ [⟨s.history, ""⟩]⟩) = _
  unfold Calculator.redo
  rw [List.getLast?_concat]
  rfl

/-- Witness for C9: undo-then-redo on a concrete state with one calculation in
history and one memento on the undo stack restores the same history. -/
theorem undo_then_redo_restores_history_witness :
    Except.map Calculator.history
      ((⟨[⟨"add", 2, 3, 5, ""⟩], [⟨[], ""⟩], []⟩ : Calculator).undo.bind Calculator.redo) =
      .ok [⟨"add", 2, 3, 5, ""⟩] :=
  undo_then_redo_restores_history ⟨[⟨"add", 2, 3, 5, ""⟩], [⟨[], ""⟩], []⟩ (by decide)

/-- C10: for every radicand a, `Root.execute(a, 0)` raises a division-by-zero
error: the degree b is used unguarded in the exponent computation
`1 / float(b)` (no validation rejects a zero degree), and `float(0)` is `0.0`,
so the division raises `ZeroDivisionError` before `pow` is ever reached. -/
theorem root_zero_degree_zero_division (a : Dec) :
    Root.execute a 0 = .error .zeroDivisionError := by
  have h1 : floatIsZero (0 : ℚ) := by norm_num [floatIsZero]
  simp only [Root.execute, if_pos h1]
